import Mathlib

/-!
Verification of the kernel-TLS handshake agent (`tlshd`): a shallow
embedding of `src/tlshd/ktls.c` and `src/tlshd/server.c`.

External library calls (GnuTLS, the kernel's `setsockopt`, the keyring)
are modelled as oracle fields of explicit environment records; the
functions below mirror the C control flow over those oracles.  Side
effects that the specification talks about (socket-option calls,
record-state extraction) are reified as event lists.
-/

namespace KtlsUtils

/-! ## Constants from `gnutls/gnutls.h` and `linux/tls.h` -/

def GNUTLS_E_SUCCESS : Int := 0
def GNUTLS_E_CERTIFICATE_ERROR : Int := -43
def GNUTLS_E_NO_CERTIFICATE_FOUND : Int := -49

/-- `gnutls_cipher_algorithm_t` values. -/
def GNUTLS_CIPHER_AES_128_GCM : Nat := 10
def GNUTLS_CIPHER_AES_256_GCM : Nat := 11
def GNUTLS_CIPHER_AES_128_CCM : Nat := 19
def GNUTLS_CIPHER_CHACHA20_POLY1305 : Nat := 23

/-- `gnutls_protocol_t` values. -/
def GNUTLS_TLS1_2 : Nat := 4
def GNUTLS_TLS1_3 : Nat := 5

def TLS_1_2_VERSION : Nat := 0x0303
def TLS_1_3_VERSION : Nat := 0x0304

def TLS_CIPHER_AES_GCM_128 : Nat := 51
def TLS_CIPHER_AES_GCM_128_IV_SIZE : Nat := 8
def TLS_CIPHER_AES_GCM_128_KEY_SIZE : Nat := 16
def TLS_CIPHER_AES_GCM_128_SALT_SIZE : Nat := 4
def TLS_CIPHER_AES_GCM_128_REC_SEQ_SIZE : Nat := 8

def TLS_CIPHER_AES_GCM_256 : Nat := 52
def TLS_CIPHER_AES_GCM_256_IV_SIZE : Nat := 8
def TLS_CIPHER_AES_GCM_256_KEY_SIZE : Nat := 32
def TLS_CIPHER_AES_GCM_256_SALT_SIZE : Nat := 4
def TLS_CIPHER_AES_GCM_256_REC_SEQ_SIZE : Nat := 8

def TLS_CIPHER_AES_CCM_128 : Nat := 53
def TLS_CIPHER_AES_CCM_128_IV_SIZE : Nat := 8
def TLS_CIPHER_AES_CCM_128_KEY_SIZE : Nat := 16
def TLS_CIPHER_AES_CCM_128_SALT_SIZE : Nat := 4
def TLS_CIPHER_AES_CCM_128_REC_SEQ_SIZE : Nat := 8

def TLS_CIPHER_CHACHA20_POLY1305 : Nat := 54
def TLS_CIPHER_CHACHA20_POLY1305_IV_SIZE : Nat := 12
def TLS_CIPHER_CHACHA20_POLY1305_KEY_SIZE : Nat := 32
def TLS_CIPHER_CHACHA20_POLY1305_REC_SEQ_SIZE : Nat := 8

/-- The `EIO` errno value, returned by `tlshd_initialize_ktls` on failure. -/
def errno_eio : Int := 5

/-! ## Data model for the kernel offload installer (`ktls.c`) -/

/-- One byte, kept abstract as a natural number. -/
abbrev Byte := Nat

/-- The union of the fields of the kernel `tls12_crypto_info_*` structs.
ChaCha20-Poly1305 has no salt field; its `salt` stays `[]`. -/
structure CryptoInfo where
  version : Nat
  cipher_type : Nat
  iv : List Byte
  key : List Byte
  salt : List Byte
  rec_seq : List Byte
deriving DecidableEq

/-- Observable side effects of the installer, in program order. -/
inductive Event where
  /-- `setsockopt(sock, SOL_TCP, TCP_ULP, "tls", ...)` -/
  | sockopt_ulp : Event
  /-- `gnutls_record_get_state(session, read, ...)` -/
  | get_record_state (rd : Bool) : Event
  /-- `setsockopt(sock, SOL_TLS, read ? TLS_RX : TLS_TX, info, ...)` -/
  | sockopt_tls (rd : Bool) (info : CryptoInfo) : Event
deriving DecidableEq

/-- Result of `gnutls_record_get_state` for one direction: MAC key, IV,
cipher key and the 8-byte record sequence number. -/
structure RecordState where
  mac_key : List Byte
  iv : List Byte
  cipher_key : List Byte
  seq_number : List Byte
deriving DecidableEq

/-- The completed GnuTLS session, as the installer observes it:
the kTLS-enable flags the library reports (`none` models
`GNUTLS_E_UNIMPLEMENTED_FEATURE`), the per-direction record-layer state
(`none` models a `gnutls_record_get_state` failure), the negotiated
protocol version and the negotiated cipher. -/
structure Session where
  ktls_flags : Option Nat
  record_state : Bool → Option RecordState
  protocol_version : Nat
  cipher : Nat

/-- The kernel side of the socket-option boundary: whether the
`TCP_ULP` call succeeds, and whether it accepts a given per-direction
crypto-info payload. -/
structure Kernel where
  ulp_ok : Bool
  accept : Bool → CryptoInfo → Bool

/-- `tlshd_is_ktls_enabled` (ktls.c:46): queries
`gnutls_transport_is_ktls_enabled`; `GNUTLS_KTLS_RECV = 1`,
`GNUTLS_KTLS_SEND = 2`. -/
def tlshd_is_ktls_enabled (s : Session) (rd : Bool) : Bool :=
  match s.ktls_flags with
  | none => false
  | some flags => if rd then flags.testBit 0 else flags.testBit 1

/-- `tlshd_setsockopt` (ktls.c:74): issues the `SOL_TLS` socket option
for one direction and reports whether the kernel accepted it. -/
def tlshd_setsockopt (k : Kernel) (rd : Bool) (info : CryptoInfo) :
    Bool × List Event :=
  (k.accept rd info, [Event.sockopt_tls rd info])

/-- `tlshd_set_aes_gcm128_info` (ktls.c:100). -/
def tlshd_set_aes_gcm128_info (k : Kernel) (s : Session) (rd : Bool) :
    Bool × List Event :=
  if tlshd_is_ktls_enabled s rd then (true, [])
  else
    match s.record_state rd with
    | none => (false, [Event.get_record_state rd])
    | some rs =>
      let base : CryptoInfo :=
        { version := TLS_1_3_VERSION, cipher_type := TLS_CIPHER_AES_GCM_128,
          iv := [], key := [], salt := [], rec_seq := [] }
      -- TLSv1.2 generates iv in the kernel
      let withIv :=
        if s.protocol_version == GNUTLS_TLS1_2 then
          { base with version := TLS_1_2_VERSION,
                      iv := rs.seq_number.take TLS_CIPHER_AES_GCM_128_IV_SIZE }
        else
          { base with iv := (rs.iv.drop TLS_CIPHER_AES_GCM_128_SALT_SIZE).take
                              TLS_CIPHER_AES_GCM_128_IV_SIZE }
      let info :=
        { withIv with salt := rs.iv.take TLS_CIPHER_AES_GCM_128_SALT_SIZE,
                      key := rs.cipher_key.take TLS_CIPHER_AES_GCM_128_KEY_SIZE,
                      rec_seq := rs.seq_number.take TLS_CIPHER_AES_GCM_128_REC_SEQ_SIZE }
      let res := tlshd_setsockopt k rd info
      (res.1, Event.get_record_state rd :: res.2)

/-- `tlshd_set_aes_gcm256_info` (ktls.c:139). -/
def tlshd_set_aes_gcm256_info (k : Kernel) (s : Session) (rd : Bool) :
    Bool × List Event :=
  if tlshd_is_ktls_enabled s rd then (true, [])
  else
    match s.record_state rd with
    | none => (false, [Event.get_record_state rd])
    | some rs =>
      let base : CryptoInfo :=
        { version := TLS_1_3_VERSION, cipher_type := TLS_CIPHER_AES_GCM_256,
          iv := [], key := [], salt := [], rec_seq := [] }
      -- TLSv1.2 generates iv in the kernel
      let withIv :=
        if s.protocol_version == GNUTLS_TLS1_2 then
          { base with version := TLS_1_2_VERSION,
                      iv := rs.seq_number.take TLS_CIPHER_AES_GCM_256_IV_SIZE }
        else
          { base with iv := (rs.iv.drop TLS_CIPHER_AES_GCM_256_SALT_SIZE).take
                              TLS_CIPHER_AES_GCM_256_IV_SIZE }
      let info :=
        { withIv with salt := rs.iv.take TLS_CIPHER_AES_GCM_256_SALT_SIZE,
                      key := rs.cipher_key.take TLS_CIPHER_AES_GCM_256_KEY_SIZE,
                      rec_seq := rs.seq_number.take TLS_CIPHER_AES_GCM_256_REC_SEQ_SIZE }
      let res := tlshd_setsockopt k rd info
      (res.1, Event.get_record_state rd :: res.2)

/-- `tlshd_set_aes_ccm128_info` (ktls.c:178). -/
def tlshd_set_aes_ccm128_info (k : Kernel) (s : Session) (rd : Bool) :
    Bool × List Event :=
  if tlshd_is_ktls_enabled s rd then (true, [])
  else
    match s.record_state rd with
    | none => (false, [Event.get_record_state rd])
    | some rs =>
      let base : CryptoInfo :=
        { version := TLS_1_3_VERSION, cipher_type := TLS_CIPHER_AES_CCM_128,
          iv := [], key := [], salt := [], rec_seq := [] }
      -- TLSv1.2 generates iv in the kernel
      let withIv :=
        if s.protocol_version == GNUTLS_TLS1_2 then
          { base with version := TLS_1_2_VERSION,
                      iv := rs.seq_number.take TLS_CIPHER_AES_CCM_128_IV_SIZE }
        else
          { base with iv := (rs.iv.drop TLS_CIPHER_AES_CCM_128_SALT_SIZE).take
                              TLS_CIPHER_AES_CCM_128_IV_SIZE }
      let info :=
        { withIv with salt := rs.iv.take TLS_CIPHER_AES_CCM_128_SALT_SIZE,
                      key := rs.cipher_key.take TLS_CIPHER_AES_CCM_128_KEY_SIZE,
                      rec_seq := rs.seq_number.take TLS_CIPHER_AES_CCM_128_REC_SEQ_SIZE }
      let res := tlshd_setsockopt k rd info
      (res.1, Event.get_record_state rd :: res.2)

/-- `tlshd_set_chacha20_poly1305_info` (ktls.c:217): the IV is copied
raw, with no salt offset, whatever the protocol version. -/
def tlshd_set_chacha20_poly1305_info (k : Kernel) (s : Session) (rd : Bool) :
    Bool × List Event :=
  if tlshd_is_ktls_enabled s rd then (true, [])
  else
    match s.record_state rd with
    | none => (false, [Event.get_record_state rd])
    | some rs =>
      let base : CryptoInfo :=
        { version := TLS_1_3_VERSION, cipher_type := TLS_CIPHER_CHACHA20_POLY1305,
          iv := [], key := [], salt := [], rec_seq := [] }
      let withVer :=
        if s.protocol_version == GNUTLS_TLS1_2 then
          { base with version := TLS_1_2_VERSION }
        else base
      let info :=
        { withVer with iv := rs.iv.take TLS_CIPHER_CHACHA20_POLY1305_IV_SIZE,
                       key := rs.cipher_key.take TLS_CIPHER_CHACHA20_POLY1305_KEY_SIZE,
                       rec_seq := rs.seq_number.take TLS_CIPHER_CHACHA20_POLY1305_REC_SEQ_SIZE }
      let res := tlshd_setsockopt k rd info
      (res.1, Event.get_record_state rd :: res.2)

/-- `tlshd_initialize_ktls` (ktls.c:257): sets `TCP_ULP`, then per
negotiated cipher installs the send (read = false) and then the receive
(read = true) direction, short-circuiting like the C `&&`. -/
def tlshd_initialize_ktls (k : Kernel) (s : Session) : Int × List Event :=
  if !k.ulp_ok then (errno_eio, [Event.sockopt_ulp])
  else if s.cipher == GNUTLS_CIPHER_AES_128_GCM then
    let tx := tlshd_set_aes_gcm128_info k s false
    if tx.1 then
      let rx := tlshd_set_aes_gcm128_info k s true
      (if rx.1 then 0 else errno_eio, Event.sockopt_ulp :: (tx.2 ++ rx.2))
    else (errno_eio, Event.sockopt_ulp :: tx.2)
  else if s.cipher == GNUTLS_CIPHER_AES_256_GCM then
    let tx := tlshd_set_aes_gcm256_info k s false
    if tx.1 then
      let rx := tlshd_set_aes_gcm256_info k s true
      (if rx.1 then 0 else errno_eio, Event.sockopt_ulp :: (tx.2 ++ rx.2))
    else (errno_eio, Event.sockopt_ulp :: tx.2)
  else if s.cipher == GNUTLS_CIPHER_AES_128_CCM then
    let tx := tlshd_set_aes_ccm128_info k s false
    if tx.1 then
      let rx := tlshd_set_aes_ccm128_info k s true
      (if rx.1 then 0 else errno_eio, Event.sockopt_ulp :: (tx.2 ++ rx.2))
    else (errno_eio, Event.sockopt_ulp :: tx.2)
  else if s.cipher == GNUTLS_CIPHER_CHACHA20_POLY1305 then
    let tx := tlshd_set_chacha20_poly1305_info k s false
    if tx.1 then
      let rx := tlshd_set_chacha20_poly1305_info k s true
      (if rx.1 then 0 else errno_eio, Event.sockopt_ulp :: (tx.2 ++ rx.2))
    else (errno_eio, Event.sockopt_ulp :: tx.2)
  else (errno_eio, [Event.sockopt_ulp])

/-- The ciphers `tlshd_initialize_ktls` has a branch for. -/
def cipherSupported (c : Nat) : Bool :=
  c == GNUTLS_CIPHER_AES_128_GCM || c == GNUTLS_CIPHER_AES_256_GCM ||
  c == GNUTLS_CIPHER_AES_128_CCM || c == GNUTLS_CIPHER_CHACHA20_POLY1305

/-- The per-direction installer the cipher switch dispatches to
(`(false, [])` for the `default` branch). -/
def tlshd_set_cipher_dir (k : Kernel) (s : Session) (rd : Bool) :
    Bool × List Event :=
  if s.cipher == GNUTLS_CIPHER_AES_128_GCM then tlshd_set_aes_gcm128_info k s rd
  else if s.cipher == GNUTLS_CIPHER_AES_256_GCM then tlshd_set_aes_gcm256_info k s rd
  else if s.cipher == GNUTLS_CIPHER_AES_128_CCM then tlshd_set_aes_ccm128_info k s rd
  else if s.cipher == GNUTLS_CIPHER_CHACHA20_POLY1305 then
    tlshd_set_chacha20_poly1305_info k s rd
  else (false, [])

/-- The crypto-info payloads of the `SOL_TLS` socket-option calls in an
event trace. -/
def tlsPayloads (evs : List Event) : List CryptoInfo :=
  evs.filterMap fun e =>
    match e with
    | Event.sockopt_tls _ info => some info
    | _ => none

/-- Number of socket-option calls (`TCP_ULP` or `SOL_TLS`) in a trace. -/
def sockoptCallCount (evs : List Event) : Nat :=
  (evs.filter fun e =>
    match e with
    | Event.sockopt_ulp => true
    | Event.sockopt_tls _ _ => true
    | _ => false).length

/-- Number of `gnutls_record_get_state` extractions in a trace. -/
def extractionCount (evs : List Event) : Nat :=
  (evs.filter fun e =>
    match e with
    | Event.get_record_state _ => true
    | _ => false).length

/-! ## Priority/cipher-set negotiator (`ktls.c:304`..`ktls.c:393`) -/

/-- `emit_cipher_string` (ktls.c:304), as the text it appends to the
priority string (empty for a cipher outside the kernel-supported set). -/
def emit_cipher_string (cipher : Nat) : String :=
  if cipher == GNUTLS_CIPHER_CHACHA20_POLY1305 then ":+CHACHA20-POLY1305"
  else if cipher == GNUTLS_CIPHER_AES_256_GCM then ":+AES-256-GCM"
  else if cipher == GNUTLS_CIPHER_AES_128_GCM then ":+AES-128-GCM"
  else if cipher == GNUTLS_CIPHER_AES_128_CCM then ":+AES-128-CCM"
  else ""

/-- The cipher-suite segment of the priority string: the `strcat` loop
of `tlshd_gnutls_priority_init` (ktls.c:369) over the library's cipher
list. -/
def cipher_segment (ciphers : List Nat) : String :=
  ciphers.foldl (fun acc c => acc ++ emit_cipher_string c) ""

/-- The full "normal" priority string built by
`tlshd_gnutls_priority_init` (ktls.c:353..370). -/
def tlshd_priority_pstring (ciphers : List Nat) : String :=
  "SECURE256:+SECURE128:-COMP-ALL" ++ ":-VERS-ALL:+VERS-TLS1.3:%NO_TICKETS"
    ++ ":-CIPHER-ALL" ++ cipher_segment ciphers

/-- The kernel-offload-supported cipher set named by the spec
(ChaCha20-Poly1305, AES-256-GCM, AES-128-GCM, AES-128-CCM). -/
def kernelSupportedCipherList : List Nat :=
  [GNUTLS_CIPHER_CHACHA20_POLY1305, GNUTLS_CIPHER_AES_256_GCM,
   GNUTLS_CIPHER_AES_128_GCM, GNUTLS_CIPHER_AES_128_CCM]

/-- Spec-side name of a supported cipher, for the refinement statement
about the cipher segment. -/
def specCipherName (cipher : Nat) : String :=
  if cipher == GNUTLS_CIPHER_CHACHA20_POLY1305 then ":+CHACHA20-POLY1305"
  else if cipher == GNUTLS_CIPHER_AES_256_GCM then ":+AES-256-GCM"
  else if cipher == GNUTLS_CIPHER_AES_128_GCM then ":+AES-128-GCM"
  else if cipher == GNUTLS_CIPHER_AES_128_CCM then ":+AES-128-CCM"
  else ""

/-- Spec-side description of the cipher segment: exactly the library
ciphers that lie in the kernel-supported set, in the library's relative
order. -/
def spec_cipher_segment (ciphers : List Nat) : String :=
  (ciphers.filter (fun c => c ∈ kernelSupportedCipherList)).foldl
    (fun acc c => acc ++ specCipherName c) ""

/-- Oracle answers for the GnuTLS calls made by
`tlshd_gnutls_priority_init`: whether `gnutls_priority_init(&p, NULL)`
succeeds, the result of `gnutls_priority_cipher_list` (`none` models a
negative return), and whether `gnutls_priority_init` accepts a given
built priority string. -/
structure PriorityEnv where
  init_default_ok : Bool
  cipher_list : Option (List Nat)
  compile : String → Bool

/-- `tlshd_gnutls_priority_init` (ktls.c:334).  The result is the
return value together with whether, at return, the base
(`tlshd_gnutls_priority`) and PSK (`tlshd_gnutls_priority_psk`)
priority objects are still allocated (live).  Mirrors the C control
flow: on cipher-list failure the function returns without releasing the
base object; before recompiling with the built string the base object
is released; on PSK-string failure the recompiled base is released. -/
def tlshd_gnutls_priority_init (env : PriorityEnv) : Int × Bool × Bool :=
  if !env.init_default_ok then (-errno_eio, false, false)
  else
    match env.cipher_list with
    | none => (-errno_eio, true, false)
    | some ciphers =>
      let pstring := tlshd_priority_pstring ciphers
      -- gnutls_priority_deinit(tlshd_gnutls_priority) then re-init
      if !env.compile pstring then (-errno_eio, false, false)
      else
        let pskstring := pstring ++ ":+PSK:+DHE-PSK:+ECDHE-PSK"
        if !env.compile pskstring then (-errno_eio, false, false)
        else (0, true, true)

/-! ## Server handshakes (`server.c`) -/

/-- A DER-encoded peer certificate, kept opaque. -/
abbrev Cert := List Byte

/-- The file-scope mutable state of `server.c`:
`tlshd_num_remote_peerids` and the first `tlshd_num_remote_peerids`
entries of the `tlshd_remote_peerid[10]` array. -/
structure Globals where
  tlshd_num_remote_peerids : Nat
  tlshd_remote_peerid : List Int
deriving DecidableEq

/-- `ARRAY_SIZE(tlshd_remote_peerid)` (server.c:47). -/
def remote_peerid_capacity : Nat := 10

/-- Oracle answers for the external calls made by
`tlshd_server_x509_verify_function`: the return value of
`gnutls_certificate_verify_peers3`, the verification status bits it
reports, the peer certificate list `gnutls_certificate_get_peers`
returns (`none` models NULL), the session's hostname hint, and
`tlshd_keyring_create_cert`. -/
structure VerifyEnv where
  verify_ret : Int
  status : Nat
  peercerts : Option (List Cert)
  hostname : String
  keyring_create : Cert → String → Int

/-- `tlshd_server_x509_verify_function` (server.c:134): the returned
code plus the updated file-scope globals.  `gnutls_certificate_get_peers`
stores the list length into `tlshd_num_remote_peerids` (0 when it
returns NULL); the clamp at server.c:178 caps it at the array size
before the registration loop. -/
def tlshd_server_x509_verify_function (env : VerifyEnv) (g : Globals) :
    Int × Globals :=
  if env.verify_ret == GNUTLS_E_NO_CERTIFICATE_FOUND then (GNUTLS_E_SUCCESS, g)
  else if env.verify_ret != GNUTLS_E_SUCCESS then (GNUTLS_E_CERTIFICATE_ERROR, g)
  else if env.status != 0 then (GNUTLS_E_CERTIFICATE_ERROR, g)
  else
    match env.peercerts with
    | none => (GNUTLS_E_CERTIFICATE_ERROR, { g with tlshd_num_remote_peerids := 0 })
    | some certs =>
      if certs.length == 0 then
        (GNUTLS_E_CERTIFICATE_ERROR, { g with tlshd_num_remote_peerids := 0 })
      else
        let n :=
          if certs.length > remote_peerid_capacity then remote_peerid_capacity
          else certs.length
        (GNUTLS_E_SUCCESS,
         { tlshd_num_remote_peerids := n,
           tlshd_remote_peerid :=
             (certs.take n).map (fun c => env.keyring_create c env.hostname) })

/-- The caller-visible output fields of `struct tlshd_handshake_parms`
that the server entry point may mutate. -/
structure HandshakeParms where
  num_remote_peerids : Nat
  remote_peerid : List Int
deriving DecidableEq

/-- The tail of `tlshd_serverhello_handshake` (server.c:338..341):
after the dispatched handshake has left the recorded identities in the
file-scope globals `g`, publish them into the caller's parms only when
at least one identity was recorded; otherwise leave the caller's fields
untouched. -/
def tlshd_serverhello_set_peerids (g : Globals) (parms : HandshakeParms) :
    HandshakeParms :=
  if g.tlshd_num_remote_peerids != 0 then
    { parms with num_remote_peerids := g.tlshd_num_remote_peerids,
                 remote_peerid := g.tlshd_remote_peerid }
  else parms

/-! ## Server PSK handshake (`server.c:253`..`server.c:303`) -/

/-- Observable steps of one server PSK handshake attempt. -/
inductive SrvEvent where
  /-- `gnutls_init(&session, GNUTLS_SERVER)` succeeded: a session now
  exists (server.c:288). -/
  | session_created : SrvEvent
  /-- The library invoked `tlshd_server_psk_cb` with the remote's
  claimed username; `ok` is whether the callback returned 0. -/
  | psk_lookup (username : String) (ok : Bool) : SrvEvent
  /-- The handshake ran to its end with the given outcome. -/
  | handshake_complete (ok : Bool) : SrvEvent
  /-- An installer-side event (socket-option call or record-state
  extraction) raised by `tlshd_initialize_ktls`. -/
  | kernel_event (e : Event) : SrvEvent
  /-- `gnutls_deinit(session)` (server.c:299). -/
  | session_destroyed : SrvEvent
deriving DecidableEq

/-- Oracle answers for one server PSK handshake attempt:
allocation/initialization results, the keyring (`search_psk` models
`keyctl_search`, `none` = failure; `get_psk_key` models
`tlshd_keyring_get_psk_key`), the username the remote claims during the
handshake, whether the rest of the TLS protocol exchange succeeds, and
the session/kernel the offload installer sees on success. -/
structure PskEnv where
  alloc_ok : Bool
  init_ok : Bool
  search_psk : String → Option Int
  get_psk_key : Int → Bool
  client_username : String
  protocol_ok : Bool
  kernel : Kernel
  tls_session : Session

/-- `tlshd_server_psk_cb` (server.c:253): searches the session keyring
for a "psk" key named by the remote's username; on success the key
serial becomes the single recorded peer identity. -/
def tlshd_server_psk_cb (env : PskEnv) (g : Globals) (username : String) :
    Int × Globals :=
  match env.search_psk username with
  | none => (-1, g)
  | some psk =>
    if !env.get_psk_key psk then (-1, g)
    else (0, { tlshd_remote_peerid := [psk], tlshd_num_remote_peerids := 1 })

/-- Modelled from the spec: `tlshd_start_tls_handshake` (the shared
handshake helper, outside this excerpt) "binds the session to the
socket, selects and applies the priority configuration, performs the
protocol handshake to completion or failure, and — on success — invokes
the Offload Installer before returning".  For a server PSK session the
library invokes `tlshd_server_psk_cb` with the remote's claimed
username during the handshake; a non-zero callback return fails the
handshake. -/
def tlshd_start_tls_handshake_psk (env : PskEnv) (g : Globals) :
    Globals × List SrvEvent :=
  let cb := tlshd_server_psk_cb env g env.client_username
  let cbev := SrvEvent.psk_lookup env.client_username (cb.1 == 0)
  if cb.1 != 0 then (cb.2, [cbev, SrvEvent.handshake_complete false])
  else if !env.protocol_ok then (cb.2, [cbev, SrvEvent.handshake_complete false])
  else
    let inst := tlshd_initialize_ktls env.kernel env.tls_session
    (cb.2, cbev :: SrvEvent.handshake_complete true ::
      inst.2.map SrvEvent.kernel_event)

/-- `tlshd_server_psk_handshake` (server.c:273): allocate PSK server
credentials, create the session, run the handshake through the shared
helper, destroy the session, free the credentials. -/
def tlshd_server_psk_handshake (env : PskEnv) (g : Globals) :
    Globals × List SrvEvent :=
  if !env.alloc_ok then (g, [])
  else if !env.init_ok then (g, [])
  else
    let hs := tlshd_start_tls_handshake_psk env g
    (hs.1, SrvEvent.session_created :: hs.2 ++ [SrvEvent.session_destroyed])

/-- Number of socket-option calls recorded in a server-event trace. -/
def srvSockoptCallCount (evs : List SrvEvent) : Nat :=
  (evs.filter fun e =>
    match e with
    | SrvEvent.kernel_event Event.sockopt_ulp => true
    | SrvEvent.kernel_event (Event.sockopt_tls _ _) => true
    | _ => false).length

/-! ## Theorems -/

/-- C8: if setting the `TCP_ULP` socket option fails, the installer
returns `EIO` immediately; the only socket-option call in the trace is
the `TCP_ULP` attempt and no per-direction record-state extraction is
attempted. -/
theorem install_ulp_failure_aborts (k : Kernel) (s : Session)
    (h : k.ulp_ok = false) :
    (tlshd_initialize_ktls k s).1 = errno_eio ∧
    (tlshd_initialize_ktls k s).2 = [Event.sockopt_ulp] ∧
    extractionCount (tlshd_initialize_ktls k s).2 = 0 ∧
    tlsPayloads (tlshd_initialize_ktls k s).2 = [] := by
  simp [tlshd_initialize_ktls, h, extractionCount, tlsPayloads]

/-- Witness for C8 at a concrete kernel and session. -/
theorem install_ulp_failure_aborts_witness :
    (tlshd_initialize_ktls { ulp_ok := false, accept := fun _ _ => true }
      { ktls_flags := none, record_state := fun _ => none,
        protocol_version := GNUTLS_TLS1_3,
        cipher := GNUTLS_CIPHER_AES_128_GCM }).1 = errno_eio ∧
    (tlshd_initialize_ktls { ulp_ok := false, accept := fun _ _ => true }
      { ktls_flags := none, record_state := fun _ => none,
        protocol_version := GNUTLS_TLS1_3,
        cipher := GNUTLS_CIPHER_AES_128_GCM }).2 = [Event.sockopt_ulp] ∧
    extractionCount (tlshd_initialize_ktls { ulp_ok := false, accept := fun _ _ => true }
      { ktls_flags := none, record_state := fun _ => none,
        protocol_version := GNUTLS_TLS1_3,
        cipher := GNUTLS_CIPHER_AES_128_GCM }).2 = 0 ∧
    tlsPayloads (tlshd_initialize_ktls { ulp_ok := false, accept := fun _ _ => true }
      { ktls_flags := none, record_state := fun _ => none,
        protocol_version := GNUTLS_TLS1_3,
        cipher := GNUTLS_CIPHER_AES_128_GCM }).2 = [] :=
  install_ulp_failure_aborts _ _ rfl

/-- C9: the server entry point publishes `num_remote_peerids` and
`remote_peerid` into the caller's parms exactly when at least one peer
identity was recorded; with zero recorded identities the parms are
returned untouched. -/
theorem serverhello_peerid_frame (g : Globals) (parms : HandshakeParms) :
    (g.tlshd_num_remote_peerids = 0 →
      tlshd_serverhello_set_peerids g parms = parms) ∧
    (g.tlshd_num_remote_peerids ≠ 0 →
      (tlshd_serverhello_set_peerids g parms).num_remote_peerids
          = g.tlshd_num_remote_peerids ∧
      (tlshd_serverhello_set_peerids g parms).remote_peerid
          = g.tlshd_remote_peerid) := by
  constructor
  · intro h
    simp [tlshd_serverhello_set_peerids, h]
  · intro h
    simp [tlshd_serverhello_set_peerids, h]

/-- Witness for C9: zero recorded identities leave the parms untouched;
three recorded identities are published. -/
theorem serverhello_peerid_frame_witness :
    (tlshd_serverhello_set_peerids ⟨0, []⟩ ⟨7, [1, 2]⟩ = ⟨7, [1, 2]⟩) ∧
    ((tlshd_serverhello_set_peerids ⟨3, [5, 6, 7]⟩ ⟨0, []⟩).num_remote_peerids = 3 ∧
     (tlshd_serverhello_set_peerids ⟨3, [5, 6, 7]⟩ ⟨0, []⟩).remote_peerid = [5, 6, 7]) :=
  ⟨(serverhello_peerid_frame ⟨0, []⟩ ⟨7, [1, 2]⟩).1 rfl,
   (serverhello_peerid_frame ⟨3, [5, 6, 7]⟩ ⟨0, []⟩).2 (by decide)⟩

/-- C10: with a successful, clean chain verification but a NULL or
empty retrieved peer list, the verification callback returns
`GNUTLS_E_CERTIFICATE_ERROR`; the no-certificate-offered case instead
returns success. -/
theorem verify_empty_chain_error :
    (∀ env : VerifyEnv, ∀ g : Globals,
      env.verify_ret = GNUTLS_E_SUCCESS → env.status = 0 →
      (env.peercerts = none ∨ env.peercerts = some []) →
      (tlshd_server_x509_verify_function env g).1 = GNUTLS_E_CERTIFICATE_ERROR) ∧
    (∀ env : VerifyEnv, ∀ g : Globals,
      env.verify_ret = GNUTLS_E_NO_CERTIFICATE_FOUND →
      (tlshd_server_x509_verify_function env g).1 = GNUTLS_E_SUCCESS) := by
  constructor
  · rintro env g h1 h2 (h3 | h3) <;>
      simp [tlshd_server_x509_verify_function, h1, h2, h3,
            GNUTLS_E_SUCCESS, GNUTLS_E_NO_CERTIFICATE_FOUND]
  · intro env g h
    simp [tlshd_server_x509_verify_function, h]

/-- Witness for C10 at concrete environments: a NULL peer list after a
clean verification yields a certificate error, while
`GNUTLS_E_NO_CERTIFICATE_FOUND` yields success. -/
theorem verify_empty_chain_error_witness :
    (tlshd_server_x509_verify_function
      ⟨GNUTLS_E_SUCCESS, 0, none, "srv", fun _ _ => 0⟩ ⟨0, []⟩).1
        = GNUTLS_E_CERTIFICATE_ERROR ∧
    (tlshd_server_x509_verify_function
      ⟨GNUTLS_E_NO_CERTIFICATE_FOUND, 0, none, "srv", fun _ _ => 0⟩ ⟨0, []⟩).1
        = GNUTLS_E_SUCCESS :=
  ⟨verify_empty_chain_error.1 ⟨GNUTLS_E_SUCCESS, 0, none, "srv", fun _ _ => 0⟩
      ⟨0, []⟩ rfl rfl (Or.inl rfl),
   verify_empty_chain_error.2 ⟨GNUTLS_E_NO_CERTIFICATE_FOUND, 0, none, "srv", fun _ _ => 0⟩
      ⟨0, []⟩ rfl⟩

/-- Environment for C4 in which cipher enumeration fails right after
the base priority object was allocated. -/
def c4LeakEnv : PriorityEnv :=
  { init_default_ok := true, cipher_list := none, compile := fun _ => true }

/-- Environment for C4 in which the PSK priority-string compilation
fails after the normal string compiled. -/
def c4PskFailEnv : PriorityEnv :=
  { init_default_ok := true, cipher_list := some [],
    compile := fun ps => ps == tlshd_priority_pstring [] }

/-- C4 (code bug): when cipher enumeration fails after the base
priority object was allocated, `tlshd_gnutls_priority_init` returns
`-EIO` with the base object still allocated — it is not released, which
contradicts the specified release-on-partial-failure policy.  By
contrast, the later PSK-string compilation failure does release it. -/
theorem priority_init_base_leak :
    ((tlshd_gnutls_priority_init c4LeakEnv).1 = -errno_eio ∧
     (tlshd_gnutls_priority_init c4LeakEnv).2.1 = true) ∧
    ((tlshd_gnutls_priority_init c4PskFailEnv).1 = -errno_eio ∧
     (tlshd_gnutls_priority_init c4PskFailEnv).2.1 = false) := by
  constructor
  · exact ⟨rfl, rfl⟩
  · exact ⟨by decide, by decide⟩

/-- Concrete kernel for the C2 scenario. -/
def c2K : Kernel := { ulp_ok := true, accept := fun _ _ => true }

/-- Concrete session for the C2 scenario: the library reports kTLS
already enabled for both directions
(`GNUTLS_KTLS_RECV | GNUTLS_KTLS_SEND = 3`). -/
def c2S : Session :=
  { ktls_flags := some 3, record_state := fun _ => none,
    protocol_version := GNUTLS_TLS1_3, cipher := GNUTLS_CIPHER_AES_128_GCM }

/-- C2 counterexample: with offload already active for both directions,
`tlshd_initialize_ktls` succeeds but still performs one socket-option
call (the unconditional `TCP_ULP` one), so "zero socket-option calls"
fails as stated. -/
theorem install_zero_sockopt_counterexample :
    tlshd_is_ktls_enabled c2S false = true ∧
    tlshd_is_ktls_enabled c2S true = true ∧
    (tlshd_initialize_ktls c2K c2S).1 = 0 ∧
    sockoptCallCount (tlshd_initialize_ktls c2K c2S).2 ≠ 0 := by
  refine ⟨rfl, rfl, rfl, ?_⟩
  decide

/-- C2 (amended): if the library reports offload already active for
both directions, the `TCP_ULP` option-setting succeeds and the cipher
is supported, then the installer returns success and its trace is the
single `TCP_ULP` socket-option call — zero per-direction `SOL_TLS`
crypto-info calls and zero record-state extractions. -/
theorem install_offload_short_circuit (k : Kernel) (s : Session)
    (hsend : tlshd_is_ktls_enabled s false = true)
    (hrecv : tlshd_is_ktls_enabled s true = true)
    (hulp : k.ulp_ok = true)
    (hc : cipherSupported s.cipher = true) :
    (tlshd_initialize_ktls k s).1 = 0 ∧
    (tlshd_initialize_ktls k s).2 = [Event.sockopt_ulp] := by
  have hc' : s.cipher = GNUTLS_CIPHER_AES_128_GCM ∨
      s.cipher = GNUTLS_CIPHER_AES_256_GCM ∨
      s.cipher = GNUTLS_CIPHER_AES_128_CCM ∨
      s.cipher = GNUTLS_CIPHER_CHACHA20_POLY1305 := by
    simpa [cipherSupported, or_assoc] using hc
  rcases hc' with h | h | h | h <;>
    simp [tlshd_initialize_ktls, tlshd_set_aes_gcm128_info,
          tlshd_set_aes_gcm256_info, tlshd_set_aes_ccm128_info,
          tlshd_set_chacha20_poly1305_info, h, hulp, hsend, hrecv,
          GNUTLS_CIPHER_AES_128_GCM, GNUTLS_CIPHER_AES_256_GCM,
          GNUTLS_CIPHER_AES_128_CCM, GNUTLS_CIPHER_CHACHA20_POLY1305]

/-- Witness for the amended C2 at the concrete kernel and session of
the counterexample. -/
theorem install_offload_short_circuit_witness :
    (tlshd_initialize_ktls c2K c2S).1 = 0 ∧
    (tlshd_initialize_ktls c2K c2S).2 = [Event.sockopt_ulp] :=
  install_offload_short_circuit c2K c2S rfl rfl rfl rfl

/-- Environment for the C3 scenario: a server PSK handshake where the
keyring search for the remote's claimed username "alice" fails. -/
def c3Env : PskEnv :=
  { alloc_ok := true, init_ok := true, search_psk := fun _ => none,
    get_psk_key := fun _ => true, client_username := "alice",
    protocol_ok := true,
    kernel := { ulp_ok := true, accept := fun _ _ => true },
    tls_session :=
      { ktls_flags := none, record_state := fun _ => none,
        protocol_version := GNUTLS_TLS1_3,
        cipher := GNUTLS_CIPHER_AES_128_GCM } }

/-- C3 counterexample: when the PSK search for "alice" fails, the
handshake attempt does NOT abort before any session is created — the
session is created first (at `gnutls_init`) and the failing search can
only happen inside the subsequent handshake. -/
theorem psk_search_failure_session_counterexample :
    c3Env.search_psk c3Env.client_username = none ∧
    SrvEvent.session_created ∈ (tlshd_server_psk_handshake c3Env ⟨0, []⟩).2 ∧
    SrvEvent.psk_lookup "alice" false ∈ (tlshd_server_psk_handshake c3Env ⟨0, []⟩).2 := by
  refine ⟨rfl, ?_, ?_⟩ <;> decide

/-- C3 (amended): for every server PSK handshake in which the PSK
search for the remote's claimed username fails, the handshake attempt
fails — after the session was created — with the session destroyed
before the attempt returns, no peer identity recorded, and no
socket-option calls. -/
theorem psk_search_failure_aborts (env : PskEnv) (g : Globals)
    (halloc : env.alloc_ok = true) (hinit : env.init_ok = true)
    (hsearch : env.search_psk env.client_username = none) :
    (tlshd_server_psk_handshake env g).2 =
      [SrvEvent.session_created,
       SrvEvent.psk_lookup env.client_username false,
       SrvEvent.handshake_complete false,
       SrvEvent.session_destroyed] ∧
    srvSockoptCallCount (tlshd_server_psk_handshake env g).2 = 0 ∧
    (tlshd_server_psk_handshake env g).1 = g := by
  simp [tlshd_server_psk_handshake, tlshd_start_tls_handshake_psk,
        tlshd_server_psk_cb, halloc, hinit, hsearch, srvSockoptCallCount]

/-- Witness for the amended C3 at the concrete "alice" environment. -/
theorem psk_search_failure_aborts_witness :
    (tlshd_server_psk_handshake c3Env ⟨0, []⟩).2 =
      [SrvEvent.session_created,
       SrvEvent.psk_lookup c3Env.client_username false,
       SrvEvent.handshake_complete false,
       SrvEvent.session_destroyed] ∧
    srvSockoptCallCount (tlshd_server_psk_handshake c3Env ⟨0, []⟩).2 = 0 ∧
    (tlshd_server_psk_handshake c3Env ⟨0, []⟩).1 = ⟨0, []⟩ :=
  psk_search_failure_aborts c3Env ⟨0, []⟩ rfl rfl rfl

/-- C6: after a successful, clean verification with a peer list of n
certificates, the recorded identity count is `min n 10`, and offering
more than 10 certificates is not an error — the callback still returns
success. -/
theorem verify_peerid_truncation (env : VerifyEnv) (g : Globals)
    (certs : List Cert)
    (h1 : env.verify_ret = GNUTLS_E_SUCCESS) (h2 : env.status = 0)
    (h3 : env.peercerts = some certs) :
    ((tlshd_server_x509_verify_function env g).2.tlshd_num_remote_peerids
        = min certs.length remote_peerid_capacity) ∧
    (certs.length > remote_peerid_capacity →
      (tlshd_server_x509_verify_function env g).1 = GNUTLS_E_SUCCESS) := by
  by_cases hz : certs.length = 0
  · simp [tlshd_server_x509_verify_function, h1, h2, h3, hz,
          GNUTLS_E_SUCCESS, GNUTLS_E_NO_CERTIFICATE_FOUND,
          remote_peerid_capacity]
  · by_cases hgt : certs.length > remote_peerid_capacity
    · simp_all [tlshd_server_x509_verify_function, h1, h2, h3,
                GNUTLS_E_SUCCESS, GNUTLS_E_NO_CERTIFICATE_FOUND,
                remote_peerid_capacity]
      omega
    · simp_all [tlshd_server_x509_verify_function, h1, h2, h3,
                GNUTLS_E_SUCCESS, GNUTLS_E_NO_CERTIFICATE_FOUND,
                remote_peerid_capacity]

/-- Environment for the C6 witness: a verified peer offering 15
certificates. -/
def c6Env : VerifyEnv :=
  { verify_ret := GNUTLS_E_SUCCESS, status := 0,
    peercerts := some (List.replicate 15 ([] : Cert)),
    hostname := "srv", keyring_create := fun _ _ => 1 }

/-- Witness for C6: 15 offered certificates yield exactly
`min 15 10 = 10` recorded identities and a success return. -/
theorem verify_peerid_truncation_witness :
    ((tlshd_server_x509_verify_function c6Env ⟨0, []⟩).2.tlshd_num_remote_peerids
        = 10) ∧
    ((tlshd_server_x509_verify_function c6Env ⟨0, []⟩).1 = GNUTLS_E_SUCCESS) :=
  ⟨by
    have h :=
      (verify_peerid_truncation c6Env ⟨0, []⟩ (List.replicate 15 ([] : Cert))
        rfl rfl rfl).1
    simpa [remote_peerid_capacity] using h,
   (verify_peerid_truncation c6Env ⟨0, []⟩ (List.replicate 15 ([] : Cert))
      rfl rfl rfl).2 (by decide)⟩

/-- C7: with `TCP_ULP` set successfully and a supported negotiated
cipher, the installer returns 0 exactly when the per-direction
installation succeeds for both the send and the receive direction, and
returns `EIO` when either direction fails. -/
theorem install_both_directions (k : Kernel) (s : Session)
    (hulp : k.ulp_ok = true) (hc : cipherSupported s.cipher = true) :
    ((tlshd_initialize_ktls k s).1 = 0 ↔
      ((tlshd_set_cipher_dir k s false).1 = true ∧
       (tlshd_set_cipher_dir k s true).1 = true)) ∧
    (((tlshd_set_cipher_dir k s false).1 = false ∨
      (tlshd_set_cipher_dir k s true).1 = false) →
      (tlshd_initialize_ktls k s).1 = errno_eio) := by
  have hc' : s.cipher = GNUTLS_CIPHER_AES_128_GCM ∨
      s.cipher = GNUTLS_CIPHER_AES_256_GCM ∨
      s.cipher = GNUTLS_CIPHER_AES_128_CCM ∨
      s.cipher = GNUTLS_CIPHER_CHACHA20_POLY1305 := by
    simpa [cipherSupported, or_assoc] using hc
  rcases hc' with h | h | h | h <;>
    simp only [tlshd_initialize_ktls, tlshd_set_cipher_dir, h, hulp,
               Bool.not_true, Bool.false_eq_true, if_false, beq_self_eq_true,
               if_true, GNUTLS_CIPHER_AES_128_GCM, GNUTLS_CIPHER_AES_256_GCM,
               GNUTLS_CIPHER_AES_128_CCM, GNUTLS_CIPHER_CHACHA20_POLY1305,
               Nat.reduceBEq, Bool.true_eq_false, errno_eio] <;>
    first
    | (cases htx : (tlshd_set_aes_gcm128_info k s false).1 <;>
       cases hrx : (tlshd_set_aes_gcm128_info k s true).1 <;>
       simp [htx, hrx])
    | (cases htx : (tlshd_set_aes_gcm256_info k s false).1 <;>
       cases hrx : (tlshd_set_aes_gcm256_info k s true).1 <;>
       simp [htx, hrx])
    | (cases htx : (tlshd_set_aes_ccm128_info k s false).1 <;>
       cases hrx : (tlshd_set_aes_ccm128_info k s true).1 <;>
       simp [htx, hrx])
    | (cases htx : (tlshd_set_chacha20_poly1305_info k s false).1 <;>
       cases hrx : (tlshd_set_chacha20_poly1305_info k s true).1 <;>
       simp [htx, hrx])

/-- Kernel for the C7 witness. -/
def c7K : Kernel := { ulp_ok := true, accept := fun _ _ => true }

/-- Session for the C7 witness: no library offload, extractable record
state, TLS 1.3, AES-128-GCM. -/
def c7S : Session :=
  { ktls_flags := none,
    record_state := fun _ =>
      some { mac_key := [], iv := List.replicate 12 1,
             cipher_key := List.replicate 16 2,
             seq_number := List.replicate 8 0 },
    protocol_version := GNUTLS_TLS1_3, cipher := GNUTLS_CIPHER_AES_128_GCM }

/-- Witness for C7 at a concrete kernel and session. -/
theorem install_both_directions_witness :
    ((tlshd_initialize_ktls c7K c7S).1 = 0 ↔
      ((tlshd_set_cipher_dir c7K c7S false).1 = true ∧
       (tlshd_set_cipher_dir c7K c7S true).1 = true)) ∧
    (((tlshd_set_cipher_dir c7K c7S false).1 = false ∨
      (tlshd_set_cipher_dir c7K c7S true).1 = false) →
      (tlshd_initialize_ktls c7K c7S).1 = errno_eio) :=
  install_both_directions c7K c7S rfl rfl

/-- C1: in every installed crypto-info payload, for the GCM/CCM
ciphers a TLS 1.2 session gets the TLS 1.2 version tag and the 8-byte
record sequence number as IV, while a TLS 1.3 session gets the
record-layer IV datum offset past the cipher's salt size; for
ChaCha20-Poly1305 the IV is the raw extracted IV datum regardless of
version. -/
theorem crypto_info_iv_version (k : Kernel) (s : Session) (rd : Bool)
    (rs : RecordState)
    (hstate : s.record_state rd = some rs)
    (hseq : rs.seq_number.length = 8)
    (hiv : rs.iv.length = 12) :
    (∀ info ∈ tlsPayloads (tlshd_set_aes_gcm128_info k s rd).2,
      (s.protocol_version = GNUTLS_TLS1_2 →
        info.version = TLS_1_2_VERSION ∧ info.iv = rs.seq_number) ∧
      (s.protocol_version = GNUTLS_TLS1_3 →
        info.version = TLS_1_3_VERSION ∧
        info.iv = rs.iv.drop TLS_CIPHER_AES_GCM_128_SALT_SIZE)) ∧
    (∀ info ∈ tlsPayloads (tlshd_set_aes_gcm256_info k s rd).2,
      (s.protocol_version = GNUTLS_TLS1_2 →
        info.version = TLS_1_2_VERSION ∧ info.iv = rs.seq_number) ∧
      (s.protocol_version = GNUTLS_TLS1_3 →
        info.version = TLS_1_3_VERSION ∧
        info.iv = rs.iv.drop TLS_CIPHER_AES_GCM_256_SALT_SIZE)) ∧
    (∀ info ∈ tlsPayloads (tlshd_set_aes_ccm128_info k s rd).2,
      (s.protocol_version = GNUTLS_TLS1_2 →
        info.version = TLS_1_2_VERSION ∧ info.iv = rs.seq_number) ∧
      (s.protocol_version = GNUTLS_TLS1_3 →
        info.version = TLS_1_3_VERSION ∧
        info.iv = rs.iv.drop TLS_CIPHER_AES_CCM_128_SALT_SIZE)) ∧
    (∀ info ∈ tlsPayloads (tlshd_set_chacha20_poly1305_info k s rd).2,
      info.iv = rs.iv) := by
  have hseq8 : rs.seq_number.take 8 = rs.seq_number :=
    List.take_of_length_le (by omega)
  have hiv12 : rs.iv.take 12 = rs.iv :=
    List.take_of_length_le (by omega)
  have hdrop : (rs.iv.drop 4).take 8 = rs.iv.drop 4 :=
    List.take_of_length_le (by simp [List.length_drop, hiv])
  by_cases hk : tlshd_is_ktls_enabled s rd
  · refine ⟨?_, ?_, ?_, ?_⟩ <;>
    · intro info hmem
      simp [tlshd_set_aes_gcm128_info, tlshd_set_aes_gcm256_info,
            tlshd_set_aes_ccm128_info, tlshd_set_chacha20_poly1305_info,
            hk, tlsPayloads] at hmem
  · refine ⟨?_, ?_, ?_, ?_⟩
    · intro info hmem
      simp [tlshd_set_aes_gcm128_info, hk, hstate, tlshd_setsockopt,
            tlsPayloads] at hmem
      subst hmem
      constructor
      · intro hv
        simp [hv, GNUTLS_TLS1_2, TLS_CIPHER_AES_GCM_128_IV_SIZE, hseq8]
      · intro hv
        simp [hv, GNUTLS_TLS1_2, GNUTLS_TLS1_3,
              TLS_CIPHER_AES_GCM_128_IV_SIZE,
              TLS_CIPHER_AES_GCM_128_SALT_SIZE, hdrop]
    · intro info hmem
      simp [tlshd_set_aes_gcm256_info, hk, hstate, tlshd_setsockopt,
            tlsPayloads] at hmem
      subst hmem
      constructor
      · intro hv
        simp [hv, GNUTLS_TLS1_2, TLS_CIPHER_AES_GCM_256_IV_SIZE, hseq8]
      · intro hv
        simp [hv, GNUTLS_TLS1_2, GNUTLS_TLS1_3,
              TLS_CIPHER_AES_GCM_256_IV_SIZE,
              TLS_CIPHER_AES_GCM_256_SALT_SIZE, hdrop]
    · intro info hmem
      simp [tlshd_set_aes_ccm128_info, hk, hstate, tlshd_setsockopt,
            tlsPayloads] at hmem
      subst hmem
      constructor
      · intro hv
        simp [hv, GNUTLS_TLS1_2, TLS_CIPHER_AES_CCM_128_IV_SIZE, hseq8]
      · intro hv
        simp [hv, GNUTLS_TLS1_2, GNUTLS_TLS1_3,
              TLS_CIPHER_AES_CCM_128_IV_SIZE,
              TLS_CIPHER_AES_CCM_128_SALT_SIZE, hdrop]
    · intro info hmem
      simp [tlshd_set_chacha20_poly1305_info, hk, hstate, tlshd_setsockopt,
            tlsPayloads] at hmem
      subst hmem
      by_cases hv : s.protocol_version == GNUTLS_TLS1_2 <;>
        simp [hv, TLS_CIPHER_CHACHA20_POLY1305_IV_SIZE, hiv12]

/-- Kernel for the C1 witness. -/
def c1K : Kernel := { ulp_ok := true, accept := fun _ _ => true }

/-- Concrete record-layer state for the C1 witness: an 8-byte sequence
number and a 12-byte extracted IV datum. -/
def c1RS : RecordState :=
  { mac_key := [], iv := [1, 2, 3, 4, 5, 6, 7, 8, 9, 10, 11, 12],
    cipher_key := List.replicate 16 7,
    seq_number := [0, 0, 0, 0, 0, 0, 0, 1] }

/-- Session for the C1 witness: TLS 1.3, AES-128-GCM, no library
offload. -/
def c1S : Session :=
  { ktls_flags := none, record_state := fun _ => some c1RS,
    protocol_version := GNUTLS_TLS1_3, cipher := GNUTLS_CIPHER_AES_128_GCM }

/-- The crypto-info payload the C1 witness session installs for the
receive direction. -/
def c1Info : CryptoInfo :=
  { version := TLS_1_3_VERSION, cipher_type := TLS_CIPHER_AES_GCM_128,
    iv := [5, 6, 7, 8, 9, 10, 11, 12],
    key := List.replicate 16 7,
    salt := [1, 2, 3, 4],
    rec_seq := [0, 0, 0, 0, 0, 0, 0, 1] }

/-- Witness for C1: at the concrete TLS 1.3 AES-128-GCM session, the
installed payload's IV is the extracted IV datum offset past the 4-byte
salt. -/
theorem crypto_info_iv_version_witness :
    c1Info ∈ tlsPayloads (tlshd_set_aes_gcm128_info c1K c1S true).2 ∧
    c1Info.version = TLS_1_3_VERSION ∧
    c1Info.iv = c1RS.iv.drop TLS_CIPHER_AES_GCM_128_SALT_SIZE :=
  ⟨by decide,
   ((crypto_info_iv_version c1K c1S true c1RS rfl rfl rfl).1 c1Info
      (by decide)).2 rfl⟩

/-- The `strcat` fold over `emit_cipher_string` equals the fold over
the spec-side names of the ciphers kept by intersection with the
kernel-supported set, from any accumulator. -/
theorem foldl_emit (ciphers : List Nat) (acc : String) :
    ciphers.foldl (fun a c => a ++ emit_cipher_string c) acc =
      (ciphers.filter fun c => c ∈ kernelSupportedCipherList).foldl
        (fun a c => a ++ specCipherName c) acc := by
  induction ciphers generalizing acc with
  | nil => rfl
  | cons c cs ih =>
    by_cases h : c ∈ kernelSupportedCipherList
    · rw [List.foldl_cons, List.filter_cons_of_pos (by simpa using h),
          List.foldl_cons, ih]
      rfl
    · rw [List.foldl_cons, List.filter_cons_of_neg (by simpa using h), ih]
      have he : emit_cipher_string c = "" := by
        simp only [kernelSupportedCipherList, List.mem_cons,
                   List.not_mem_nil, or_false, not_or] at h
        obtain ⟨h1, h2, h3, h4⟩ := h
        simp [emit_cipher_string, h1, h2, h3, h4]
      rw [he, String.append_empty]

/-- C5: the cipher-suite segment of the constructed priority string is
exactly the library's cipher list intersected with the
kernel-offload-supported set, in the library's relative order; the full
priority string is that segment appended to the fixed prefix. -/
theorem priority_cipher_segment_spec (ciphers : List Nat) :
    cipher_segment ciphers = spec_cipher_segment ciphers ∧
    tlshd_priority_pstring ciphers =
      "SECURE256:+SECURE128:-COMP-ALL:-VERS-ALL:+VERS-TLS1.3:%NO_TICKETS:-CIPHER-ALL"
        ++ spec_cipher_segment ciphers := by
  have h1 : cipher_segment ciphers = spec_cipher_segment ciphers := by
    simpa [cipher_segment, spec_cipher_segment] using foldl_emit ciphers ""
  refine ⟨h1, ?_⟩
  have h2 : "SECURE256:+SECURE128:-COMP-ALL"
        ++ ":-VERS-ALL:+VERS-TLS1.3:%NO_TICKETS" ++ ":-CIPHER-ALL"
      = "SECURE256:+SECURE128:-COMP-ALL:-VERS-ALL:+VERS-TLS1.3:%NO_TICKETS:-CIPHER-ALL" :=
    rfl
  unfold tlshd_priority_pstring
  rw [h1, h2]

end KtlsUtils
